import Mathlib

/-!
Verification development for the TaskManagerPro repository (Express REST API +
Next.js client).  The definitions below are a shallow embedding of the
backend's RBAC module (backend/src/middleware/rbac), the task routes
(backend/src/routes/tasks), the user routes (backend/src/routes/users) and the
MongoDB connection retry loop (backend/src/index).  MongoDB documents are
modelled as Lean structures, collections as lists, and each route handler as a
function from the request data and the current collection contents to an
outcome (mirroring the HTTP status branches of the handler) together with the
updated collection.  Object ids are modelled as natural numbers and dates as
integers (days); the ObjectId-format check of the routes is therefore always
satisfied and is not modelled.  The service module
backend/src/services/recurringTaskService is not part of the sources (only
its import and call sites are); its functions are modelled from the spec
and are marked as such in their doc comments.
-/

namespace TaskManagerPro

/-! ## RBAC (middleware/rbac): role permission table and lookup -/

/-- Admin permission list of the rolePermissions table (rbac, admin key). -/
def adminPermissions : List String :=
  ["tasks:create", "tasks:read", "tasks:update", "tasks:delete",
   "tasks:assign", "tasks:read-all", "tasks:update-all", "tasks:delete-all",
   "users:read", "users:update", "users:create", "users:delete",
   "users:manage-roles", "reports:view", "reports:export", "system:settings"]

/-- Manager permission list of the rolePermissions table (rbac, manager key). -/
def managerPermissions : List String :=
  ["tasks:create", "tasks:read", "tasks:update", "tasks:delete",
   "tasks:assign", "tasks:read-all", "tasks:update-all", "tasks:delete-all",
   "users:read", "reports:view", "reports:export"]

/-- Regular-user permission list of the rolePermissions table (rbac, user key). -/
def userPermissions : List String :=
  ["tasks:create", "tasks:read", "tasks:update", "tasks:delete", "tasks:assign"]

/-- The static rolePermissions object of middleware/rbac: a record with the
three keys admin, manager and user.  Indexing with any other string yields
undefined, modelled as none. -/
def rolePermissions (role : String) : Option (List String) :=
  if role = "admin" then some adminPermissions
  else if role = "manager" then some managerPermissions
  else if role = "user" then some userPermissions
  else none

/-- A user document, as read by the routes.  The role field is optional to
model the falsy-role guard of hasPermission. -/
structure User where
  id : Nat
  name : String
  email : String
  role : Option String
deriving DecidableEq

/-- hasPermission of middleware/rbac: returns false when the user or its role
is absent, otherwise looks the role up in the rolePermissions table and tests
list membership of the permission string. -/
def hasPermission (user : Option User) (permission : String) : Bool :=
  match user with
  | none => false
  | some u =>
    match u.role with
    | none => false
    | some r =>
      match rolePermissions r with
      | none => false
      | some permissions => decide (permission ∈ permissions)

/-! ## Task documents (models/Task as used by the routes) -/

/-- A task document with the fields the task routes read and write. -/
structure Task where
  id : Nat
  title : String
  description : String
  dueDate : Int
  priority : String
  status : String := "todo"
  assignedTo : Nat
  createdBy : Nat
  isRecurring : Bool := false
  recurringType : Option String := none
  recurringInterval : Option Int := none
  recurringDays : Option (List Int) := none
  recurringDate : Option Int := none
  recurringEndDate : Option Int := none
  parentTaskId : Option Nat := none
deriving DecidableEq

/-- The valid values of the recurringType field, from the route validators. -/
def recurringTypes : List String := ["daily", "weekly", "monthly", "custom"]

/-! ## Recurring task service (services/recurringTaskService)

The implementation file of this service is not among the sources; only
its import and call sites are.  The definitions here are modelled from
the specification. -/

/-- Modelled from the spec: the recurrence schedule step of the missing
recurringTaskService.  Per the glossary a recurring task spawns instances "on
a schedule (daily/weekly/monthly/custom interval)"; with dates as day counts
the next instance is due one schedule step after the template's due date
(months are taken as 30 days in this day-indexed model). -/
def nextDueDate (t : Task) : Int :=
  match t.recurringType with
  | some "daily" => t.dueDate + 1
  | some "weekly" => t.dueDate + 7
  | some "monthly" => t.dueDate + 30
  | some "custom" => t.dueDate + t.recurringInterval.getD 1
  | _ => t.dueDate

/-- Modelled from the spec: createRecurringTaskInstance of the missing
recurringTaskService.  A recurring template "spawns successive instances on a
schedule ... until an optional end date": the spawned instance copies the
template with a fresh id, a pending status, the next scheduled due date and a
parentTaskId linking it to the template, and no instance is spawned past the
template's recurringEndDate. -/
def createRecurringTaskInstance (newId : Nat) (tmpl : Task) : Option Task :=
  let nd := nextDueDate tmpl
  let inst : Task :=
    { tmpl with
        id := newId
        status := "todo"
        dueDate := nd
        isRecurring := false
        parentTaskId := some tmpl.id }
  match tmpl.recurringEndDate with
  | some e => if nd ≤ e then some inst else none
  | none => some inst

/-- Modelled from the spec: generateUpcomingRecurringTasks of the missing
recurringTaskService, called by the daily cron job of index.ts.  It spawns the
next instance for every recurring template via createRecurringTaskInstance. -/
def generateUpcomingRecurringTasks (nextId : Nat) (db : List Task) : List Task :=
  ((db.filter (fun t => t.isRecurring && t.parentTaskId.isNone)).enum).filterMap
    (fun p => createRecurringTaskInstance (nextId + p.1) p.2)

/-- Modelled from the spec: processCompletedRecurringTasks of the missing
recurringTaskService, called by the daily cron job of index.ts.  Completed
recurring templates get their next instance via createRecurringTaskInstance. -/
def processCompletedRecurringTasks (nextId : Nat) (db : List Task) : List Task :=
  ((db.filter (fun t => t.isRecurring && t.status == "completed")).enum).filterMap
    (fun p => createRecurringTaskInstance (nextId + p.1) p.2)

/-! ## GET /api/tasks (routes/tasks): query construction

The handler builds a Mongo query object field by field from the request
parameters, then overwrites its or-clause slot with the role-visibility
disjunction for callers that are neither admin nor manager.  Sorting and the
optional result limit only reorder and truncate the matching documents; the
theorems below are about the set of documents matching the query. -/

/-- Truthiness of an optional string query parameter (absent or empty is
falsy, as in the JavaScript if-guards of the handler). -/
def strTruthy : Option String → Bool
  | none => false
  | some s => s != ""

/-- The single or-slot of the query object: either the search disjunction
built from the search parameter, or the role-visibility disjunction. -/
inductive OrClause where
  | searchOr (s : String)
  | visibilityOr (uid : Nat)
deriving DecidableEq

/-- The Mongo query object built by GET /api/tasks: one optional slot per
filtered field plus the single or-slot. -/
structure TaskQuery where
  status : Option String := none
  priority : Option String := none
  isRecurring : Option Bool := none
  recurringType : Option String := none
  orClause : Option OrClause := none
  assignedTo : Option Nat := none
  createdBy : Option Nat := none
deriving DecidableEq

/-- The request parameters of GET /api/tasks that shape the query (sortBy,
sortOrder and limit do not change which documents match). -/
structure ListParams where
  status : Option String := none
  priority : Option String := none
  search : Option String := none
  assignedTo : Option Nat := none
  createdBy : Option Nat := none
  isRecurring : Option String := none
  recurringType : Option String := none
deriving DecidableEq

/-- The canSeeAllTasks test of GET /api/tasks: the caller's role is admin or
manager. -/
def canSeeAllTasks (u : User) : Bool :=
  u.role == some "admin" || u.role == some "manager"

/-- The filter section of the query built by GET /api/tasks before the
role-based step: status, priority, isRecurring and recurringType filters, and
the search or-clause (title or description match).  Each slot is set exactly
when the corresponding parameter is truthy, mirroring the if-guards of the
handler. -/
def baseTaskQuery (p : ListParams) : TaskQuery :=
  { status := if strTruthy p.status then p.status else none
    priority := if strTruthy p.priority then p.priority else none
    isRecurring := if p.isRecurring.isSome then some (p.isRecurring == some "true") else none
    recurringType := if strTruthy p.recurringType then p.recurringType else none
    orClause := if strTruthy p.search then some (OrClause.searchOr (p.search.getD "")) else none
    assignedTo := none
    createdBy := none }

/-- The complete query built by GET /api/tasks: for callers that are neither
admin nor manager the or-slot of the base query is overwritten with the
role-visibility disjunction (discarding any search or-clause); admin and
manager callers instead get the optional assignedTo and createdBy filters. -/
def buildTaskQuery (p : ListParams) (u : User) : TaskQuery :=
  if !(canSeeAllTasks u) then
    { baseTaskQuery p with orClause := some (OrClause.visibilityOr u.id) }
  else
    { baseTaskQuery p with
        assignedTo := if p.assignedTo.isSome then p.assignedTo else none
        createdBy := if p.createdBy.isSome then p.createdBy else none }

/-- Case-insensitive substring test, modelling the case-insensitive regex
match of the search filter on a literal search string. -/
def containsCI (hay pat : String) : Bool :=
  decide (List.IsInfix pat.toLower.data hay.toLower.data)

/-- Whether a task satisfies the or-slot of the query. -/
def matchesOrClause : Option OrClause → Task → Bool
  | none, _ => true
  | some (OrClause.searchOr s), t => containsCI t.title s || containsCI t.description s
  | some (OrClause.visibilityOr uid), t => t.assignedTo == uid || t.createdBy == uid

/-- Mongo equality semantics of one optional query slot: an unset slot
matches every document, a set slot requires field equality. -/
def qmatch {α : Type} [BEq α] (slot : Option α) (v : α) : Bool :=
  match slot with
  | none => true
  | some x => v == x

/-- Mongo equality semantics of the recurringType slot: a set slot requires
the optional document field to hold exactly that value. -/
def qmatchOptField (slot : Option String) (v : Option String) : Bool :=
  match slot with
  | none => true
  | some s => v == some s

/-- Mongo find semantics for the query shape built by GET /api/tasks: a
document matches when every set slot agrees with the document. -/
def matchesTaskQuery (q : TaskQuery) (t : Task) : Bool :=
  qmatch q.status t.status &&
  qmatch q.priority t.priority &&
  qmatch q.isRecurring t.isRecurring &&
  qmatchOptField q.recurringType t.recurringType &&
  matchesOrClause q.orClause t &&
  qmatch q.assignedTo t.assignedTo &&
  qmatch q.createdBy t.createdBy

/-- The documents matching the GET /api/tasks query (the handler then sorts
them and applies the optional limit). -/
def tasksMatching (db : List Task) (p : ListParams) (u : User) : List Task :=
  db.filter (matchesTaskQuery (buildTaskQuery p u))

/-! Filter predicates used to state what the built query matches. -/

/-- The status, priority, isRecurring and recurringType filters of the
request, as a predicate on tasks. -/
def plainFilter (p : ListParams) (t : Task) : Bool :=
  (!strTruthy p.status || t.status == p.status.getD "") &&
  (!strTruthy p.priority || t.priority == p.priority.getD "") &&
  (!p.isRecurring.isSome || t.isRecurring == (p.isRecurring == some "true")) &&
  (!strTruthy p.recurringType || t.recurringType == some (p.recurringType.getD ""))

/-- The search filter of the request, as a predicate on tasks. -/
def searchFilter (p : ListParams) (t : Task) : Bool :=
  !strTruthy p.search ||
    (containsCI t.title (p.search.getD "") || containsCI t.description (p.search.getD ""))

/-- The assignedTo and createdBy filters available to admin and manager
callers, as a predicate on tasks. -/
def adminParamFilter (p : ListParams) (t : Task) : Bool :=
  (!p.assignedTo.isSome || t.assignedTo == p.assignedTo.getD 0) &&
  (!p.createdBy.isSome || t.createdBy == p.createdBy.getD 0)

/-- The role-visibility predicate: the task is assigned to or created by the
caller. -/
def visibilityFilter (u : User) (t : Task) : Bool :=
  t.assignedTo == u.id || t.createdBy == u.id

/-! ## GET /api/tasks/stats (routes/tasks): role-scoped base query -/

/-- The base query of GET /api/tasks/stats: empty for admin and manager
callers, otherwise the visibility disjunction over the caller's id (modelled
as the scoping user id). -/
def statsBaseQuery (u : User) : Option Nat :=
  if u.role == some "admin" || u.role == some "manager" then none else some u.id

/-- Match semantics of the stats base query. -/
def statsMatches (q : Option Nat) (t : Task) : Bool :=
  match q with
  | none => true
  | some uid => t.assignedTo == uid || t.createdBy == uid

/-- The documents that all aggregations and counts of GET /api/tasks/stats
range over. -/
def statsMatchSet (db : List Task) (u : User) : List Task :=
  db.filter (statsMatches (statsBaseQuery u))

/-! ## POST /api/tasks (routes/tasks): validation and creation -/

/-- Falsiness of an optional string value (absent or empty), as used by the
recurringType guard of the create handler. -/
def optStrFalsy : Option String → Bool
  | none => true
  | some s => s == ""

/-- The request body of POST /api/tasks.  Date fields carry already parsed
values; an absent or unparseable dueDate is none and fails the ISO8601
validator. -/
structure CreateTaskReq where
  title : String := ""
  description : String := ""
  dueDate : Option Int := none
  priority : String := ""
  assignedTo : Option Nat := none
  isRecurring : Option Bool := none
  recurringType : Option String := none
  recurringInterval : Option Int := none
  recurringDays : Option (List Int) := none
  recurringDate : Option Int := none
  recurringEndDate : Option Int := none
deriving DecidableEq

/-- The express-validator chain of POST /api/tasks, collecting the error
messages of the failing validators in declaration order. -/
def validateCreate (r : CreateTaskReq) : List String :=
  (if r.title == "" then ["Title is required"] else []) ++
  (if r.description == "" then ["Description is required"] else []) ++
  (if r.dueDate.isNone then ["Valid due date is required"] else []) ++
  (if decide (r.priority ∈ ["low", "medium", "high"]) then []
   else ["Priority must be low, medium, or high"]) ++
  (if r.assignedTo.isNone then ["Assignee is required"] else []) ++
  (match r.recurringType with
   | none => []
   | some ty => if decide (ty ∈ recurringTypes) then []
                else ["Recurring type must be daily, weekly, monthly, or custom"]) ++
  (match r.recurringInterval with
   | none => []
   | some i => if 1 ≤ i then [] else ["Recurring interval must be a positive integer"]) ++
  (match r.recurringDays with
   | none => []
   | some ds => if ds.all (fun d => 0 ≤ d && d ≤ 6) then []
                else ["Recurring days must be between 0 and 6"]) ++
  (match r.recurringDate with
   | none => []
   | some d => if 1 ≤ d && d ≤ 31 then [] else ["Recurring date must be between 1 and 31"])

/-- Outcome of POST /api/tasks: a 400 with the validator errors, a 404 for an
unknown assignee, the 400 recurring-type guard, or a 201 with the created
task and the recurring instance spawned for recurring tasks. -/
inductive CreateOutcome where
  | validationError (errors : List String)
  | assigneeNotFound
  | recurringTypeRequired
  | created (task : Task) (inst : Option Task)
deriving DecidableEq

/-- HTTP status of each POST /api/tasks outcome. -/
def createOutcomeStatus : CreateOutcome → Nat
  | .validationError _ => 400
  | .assigneeNotFound => 404
  | .recurringTypeRequired => 400
  | .created _ _ => 201

/-- Response message of the recurring-type guard of POST /api/tasks. -/
def recurringTypeRequiredMessage : String :=
  "Recurring type is required for recurring tasks"

/-- The POST /api/tasks handler: validator errors first, then the assignee
existence check, then the recurring-type guard, then creation (spawning the
first instance of a recurring task). -/
def createTask (users : List User) (creator : User) (nextId : Nat)
    (r : CreateTaskReq) : CreateOutcome :=
  let errors := validateCreate r
  if errors.isEmpty then
    if (users.find? (fun v => some v.id == r.assignedTo)).isNone then
      .assigneeNotFound
    else if (r.isRecurring == some true) && optStrFalsy r.recurringType then
      .recurringTypeRequired
    else
      let task : Task :=
        { id := nextId
          title := r.title
          description := r.description
          dueDate := r.dueDate.getD 0
          priority := r.priority
          status := "todo"
          assignedTo := r.assignedTo.getD 0
          createdBy := creator.id
          isRecurring := r.isRecurring.getD false
          recurringType := r.recurringType
          recurringInterval := r.recurringInterval
          recurringDays := r.recurringDays
          recurringDate := r.recurringDate
          recurringEndDate := r.recurringEndDate
          parentTaskId := none }
      .created task
        (if task.isRecurring then createRecurringTaskInstance (nextId + 1) task else none)
  else .validationError errors

/-! ## PUT /api/tasks/:id (routes/tasks): update -/

/-- The request body of PUT /api/tasks/:id; every field is optional. -/
structure UpdateReq where
  title : Option String := none
  description : Option String := none
  dueDate : Option Int := none
  priority : Option String := none
  status : Option String := none
  assignedTo : Option Nat := none
  isRecurring : Option Bool := none
  recurringType : Option String := none
  recurringInterval : Option Int := none
  recurringDays : Option (List Int) := none
  recurringDate : Option Int := none
  recurringEndDate : Option Int := none
deriving DecidableEq

/-- The express-validator chain of PUT /api/tasks/:id (all optional). -/
def validateUpdate (b : UpdateReq) : List String :=
  (match b.title with | some "" => ["Title cannot be empty"] | _ => []) ++
  (match b.description with | some "" => ["Description cannot be empty"] | _ => []) ++
  (match b.priority with
   | none => []
   | some s => if decide (s ∈ ["low", "medium", "high"]) then []
               else ["Priority must be low, medium, or high"]) ++
  (match b.status with
   | none => []
   | some s => if decide (s ∈ ["todo", "in-progress", "completed"]) then []
               else ["Invalid status"]) ++
  (match b.recurringType with
   | none => []
   | some ty => if decide (ty ∈ recurringTypes) then []
                else ["Recurring type must be daily, weekly, monthly, or custom"]) ++
  (match b.recurringInterval with
   | none => []
   | some i => if 1 ≤ i then [] else ["Recurring interval must be a positive integer"]) ++
  (match b.recurringDays with
   | none => []
   | some ds => if ds.all (fun d => 0 ≤ d && d ≤ 6) then []
                else ["Recurring days must be between 0 and 6"]) ++
  (match b.recurringDate with
   | none => []
   | some d => if 1 ≤ d && d ≤ 31 then [] else ["Recurring date must be between 1 and 31"])

/-- Mongo set-update semantics of findByIdAndUpdate with the request body:
every field present in the body replaces the stored field. -/
def applyUpdateSet (t : Task) (b : UpdateReq) : Task :=
  { t with
      title := b.title.getD t.title
      description := b.description.getD t.description
      dueDate := b.dueDate.getD t.dueDate
      priority := b.priority.getD t.priority
      status := b.status.getD t.status
      assignedTo := b.assignedTo.getD t.assignedTo
      isRecurring := b.isRecurring.getD t.isRecurring
      recurringType := (match b.recurringType with | none => t.recurringType | some s => some s)
      recurringInterval := (match b.recurringInterval with | none => t.recurringInterval | some i => some i)
      recurringDays := (match b.recurringDays with | none => t.recurringDays | some ds => some ds)
      recurringDate := (match b.recurringDate with | none => t.recurringDate | some d => some d)
      recurringEndDate := (match b.recurringEndDate with | none => t.recurringEndDate | some e => some e) }

/-- Outcome of PUT /api/tasks/:id. -/
inductive UpdateOutcome where
  | validationError (errors : List String)
  | notFound
  | forbidden
  | childRecurring
  | updated (task : Task)
deriving DecidableEq

/-- HTTP status of each PUT /api/tasks/:id outcome. -/
def updateOutcomeStatus : UpdateOutcome → Nat
  | .validationError _ => 400
  | .notFound => 404
  | .forbidden => 403
  | .childRecurring => 400
  | .updated _ => 200

/-- Response message of the child-task guard of PUT /api/tasks/:id. -/
def childRecurringMessage : String :=
  "Cannot make a recurring task instance into a recurring task"

/-- The PUT /api/tasks/:id handler: validator errors, then lookup, then the
creator-or-admin-or-manager permission check, then the guard refusing to make
a recurring task instance recurring, then the set-update followed by the two
recurring re-generation steps (next instance on completion; children wiped
and re-created when the recurring settings changed). -/
def updateTask (db : List Task) (u : User) (id : Nat) (b : UpdateReq)
    (nextId : Nat) : UpdateOutcome × List Task :=
  let errors := validateUpdate b
  if errors.isEmpty then
    match db.find? (fun t => t.id == id) with
    | none => (.notFound, db)
    | some task =>
      let isTaskCreator := task.createdBy == u.id
      let isAdmin := u.role == some "admin"
      let isManager := u.role == some "manager"
      if !(isTaskCreator || isAdmin || isManager) then (.forbidden, db)
      else if task.parentTaskId.isSome && (b.isRecurring == some true) then
        (.childRecurring, db)
      else
        let updatedTask := applyUpdateSet task b
        let db1 := db.map (fun t => if t.id == id then updatedTask else t)
        let isNowCompleted := (b.status == some "completed") && !(task.status == "completed")
        let db2 :=
          if isNowCompleted && updatedTask.isRecurring then
            match createRecurringTaskInstance nextId updatedTask with
            | some inst => db1 ++ [inst]
            | none => db1
          else db1
        let recurringChanged :=
          !(b.isRecurring == some task.isRecurring) || !(b.recurringType == task.recurringType)
        let db3 :=
          if recurringChanged && updatedTask.isRecurring then
            let cleared := db2.filter (fun t => !(t.parentTaskId == some updatedTask.id))
            match createRecurringTaskInstance (nextId + 1) updatedTask with
            | some inst => cleared ++ [inst]
            | none => cleared
          else db2
        (.updated updatedTask, db3)
  else (.validationError errors, db)

/-! ## DELETE /api/tasks/:id (routes/tasks) -/

/-- Outcome of DELETE /api/tasks/:id. -/
inductive DeleteOutcome where
  | notFound
  | forbidden
  | deleted
deriving DecidableEq

/-- HTTP status of each DELETE /api/tasks/:id outcome. -/
def deleteOutcomeStatus : DeleteOutcome → Nat
  | .notFound => 404
  | .forbidden => 403
  | .deleted => 200

/-- The DELETE /api/tasks/:id handler: lookup, then the guard allowing only
the task's creator or an admin (the handler computes isManager but does not
use it), then deletion of the document. -/
def deleteTask (db : List Task) (u : User) (id : Nat) : DeleteOutcome × List Task :=
  match db.find? (fun t => t.id == id) with
  | none => (.notFound, db)
  | some task =>
    let isTaskCreator := task.createdBy == u.id
    let isAdmin := u.role == some "admin"
    if !(isTaskCreator || isAdmin) then (.forbidden, db)
    else (.deleted, db.eraseP (fun t => t.id == id))

/-! ## User routes (routes/users): role update and account deletion

Both routes run behind the checkPermission middleware of middleware/auth,
which rejects with 403 when hasPermission fails for the required
permission. -/

/-- Outcome of PUT /api/users/:id/role. -/
inductive RoleUpdateOutcome where
  | forbiddenNoPermission
  | validationError
  | notFound
  | selfChange
  | updatedRole
deriving DecidableEq

/-- HTTP status of each PUT /api/users/:id/role outcome (the middleware 403,
the validator 400, the 404 lookup failure, the own-role 403 guard, 200). -/
def roleUpdateStatus : RoleUpdateOutcome → Nat
  | .forbiddenNoPermission => 403
  | .validationError => 400
  | .notFound => 404
  | .selfChange => 403
  | .updatedRole => 200

/-- The PUT /api/users/:id/role pipeline: the users:manage-roles permission
middleware, the role isIn validator, the target lookup, the guard refusing to
change one's own role, then the role write. -/
def updateUserRole (db : List User) (requester : User) (targetId : Nat)
    (newRole : String) : RoleUpdateOutcome × List User :=
  if !(hasPermission (some requester) "users:manage-roles") then
    (.forbiddenNoPermission, db)
  else if !(decide (newRole ∈ ["admin", "manager", "user"])) then
    (.validationError, db)
  else
    match db.find? (fun v => v.id == targetId) with
    | none => (.notFound, db)
    | some target =>
      if target.id == requester.id then (.selfChange, db)
      else
        (.updatedRole,
         db.map (fun v => if v.id == targetId then { v with role := some newRole } else v))

/-- Outcome of DELETE /api/users/:id. -/
inductive UserDeleteOutcome where
  | forbiddenNoPermission
  | notFound
  | selfDelete
  | deletedUser
deriving DecidableEq

/-- HTTP status of each DELETE /api/users/:id outcome. -/
def userDeleteStatus : UserDeleteOutcome → Nat
  | .forbiddenNoPermission => 403
  | .notFound => 404
  | .selfDelete => 403
  | .deletedUser => 200

/-- The DELETE /api/users/:id pipeline: the users:delete permission
middleware, the target lookup, the guard refusing to delete one's own
account, then the deletion. -/
def deleteUser (db : List User) (requester : User) (targetId : Nat) :
    UserDeleteOutcome × List User :=
  if !(hasPermission (some requester) "users:delete") then
    (.forbiddenNoPermission, db)
  else
    match db.find? (fun v => v.id == targetId) with
    | none => (.notFound, db)
    | some target =>
      if target.id == requester.id then (.selfDelete, db)
      else (.deletedUser, db.eraseP (fun v => v.id == targetId))

/-! ## connectWithRetry (index.ts)

The connection loop attempts mongoose.connect; on rejection it logs and
schedules itself again with setTimeout after 5000 milliseconds.  The shallow
embedding indexes the attempts: outcome gives each attempt's success, attempt
n + 1 happens exactly when attempt n happened and failed, and its scheduled
time is 5000 milliseconds after the failing attempt (the duration of an
attempt is abstracted away). -/

/-- Scheduled start time (milliseconds) of the nth connection attempt: each
retry is scheduled 5000 milliseconds after the previous failure. -/
def connectAttemptTime : Nat → Nat
  | 0 => 0
  | n + 1 => connectAttemptTime n + 5000

/-- Whether the nth connection attempt happens: the first always does, and a
retry happens exactly when the previous attempt happened and failed. -/
def connectAttemptHappens (outcome : Nat → Bool) : Nat → Bool
  | 0 => true
  | n + 1 => connectAttemptHappens outcome n && !(outcome n)

/-- An outcome sequence on which every connection attempt fails. -/
def alwaysFail : Nat → Bool := fun _ => false

/-! ## Sample documents and requests used by the witnesses below -/

/-- A manager user. -/
def uAliceManager : User :=
  { id := 1, name := "Alice", email := "alice@example.com", role := some "manager" }

/-- A second manager user, differing from the first in every non-role field. -/
def uBobManager : User :=
  { id := 2, name := "Bob", email := "bob@example.com", role := some "manager" }

/-- A regular user. -/
def uCarolUser : User :=
  { id := 3, name := "Carol", email := "carol@example.com", role := some "user" }

/-- An admin user. -/
def uDanAdmin : User :=
  { id := 4, name := "Dan", email := "dan@example.com", role := some "admin" }

/-- A create request that is recurring without a recurringType and names an
assignee id that no user document carries. -/
def reqNoAssignee : CreateTaskReq :=
  { title := "standup"
    description := "daily sync"
    dueDate := some 0
    priority := "low"
    assignedTo := some 42
    isRecurring := some true }

/-- A create request whose recurringType is outside the valid set. -/
def reqBadRecurringType : CreateTaskReq :=
  { title := "standup"
    description := "daily sync"
    dueDate := some 0
    priority := "low"
    assignedTo := some 1
    recurringType := some "yearly" }

/-- A recurring create request without a recurringType whose assignee
exists. -/
def reqMissingRecurringType : CreateTaskReq :=
  { title := "standup"
    description := "daily sync"
    dueDate := some 0
    priority := "low"
    assignedTo := some 1
    isRecurring := some true }

/-- A daily recurring template whose end date admits exactly one more
instance. -/
def tmplDailyEnd : Task :=
  { id := 10
    title := "report"
    description := "status report"
    dueDate := 10
    priority := "medium"
    status := "todo"
    assignedTo := 1
    createdBy := 3
    isRecurring := true
    recurringType := some "daily"
    recurringEndDate := some 11 }

/-- A daily recurring template without an end date. -/
def tmplDailyNoEnd : Task :=
  { id := 11
    title := "report"
    description := "status report"
    dueDate := 10
    priority := "medium"
    status := "todo"
    assignedTo := 1
    createdBy := 3
    isRecurring := true
    recurringType := some "daily" }

/-- The instance spawned from tmplDailyEnd with fresh id 99. -/
def instDailyEnd : Task :=
  { tmplDailyEnd with
      id := 99
      status := "todo"
      dueDate := 11
      isRecurring := false
      parentTaskId := some tmplDailyEnd.id }

/-- A task that is a spawned instance of a recurring series (it carries a
parentTaskId). -/
def childTask : Task :=
  { id := 20
    title := "report"
    description := "status report"
    dueDate := 11
    priority := "medium"
    status := "todo"
    assignedTo := 1
    createdBy := 1
    parentTaskId := some 10 }

/-- An update body that only sets isRecurring to true. -/
def reqMakeRecurring : UpdateReq := { isRecurring := some true }

/-- A task created by Carol. -/
def taskByCarol : Task :=
  { id := 30
    title := "deploy"
    description := "ship release"
    dueDate := 3
    priority := "high"
    status := "todo"
    assignedTo := 1
    createdBy := 3 }

/-- An empty parameter record for GET /api/tasks. -/
def emptyListParams : ListParams := {}

/-!
# Theorems

One theorem per claim, preceded where needed by its counterexample, shared
helper lemmas, and followed by its witness.
-/

/-- C1: hasPermission returns true exactly when the permission string is an
element of the rolePermissions table at the user's role key, and returns
false for an absent user; an absent role or a role outside the table keys
admin, manager, user makes the right-hand side unsatisfiable, hence the
result false. -/
theorem hasPermission_table_lookup (u : Option User) (p : String) :
    (hasPermission u p = true ↔
      ∃ usr r perms, u = some usr ∧ usr.role = some r ∧
        rolePermissions r = some perms ∧ p ∈ perms)
    ∧ hasPermission none p = false := by
  refine ⟨?_, rfl⟩
  cases u with
  | none => simp [hasPermission]
  | some usr =>
    cases hr : usr.role with
    | none => simp [hasPermission, hr]
    | some r =>
      cases hp : rolePermissions r with
      | none => simp [hasPermission, hr, hp]
      | some perms => simp [hasPermission, hr, hp]

/-- C8: the hasPermission lookup depends on the user only through its role
field, so any two users with equal roles receive identical permission
verdicts for every permission string (and the lookup, a pure function of the
static table, is deterministic). -/
theorem hasPermission_depends_only_on_role (u₁ u₂ : User) (p : String)
    (h : u₁.role = u₂.role) :
    hasPermission (some u₁) p = hasPermission (some u₂) p := by
  show (match u₁.role with
        | none => false
        | some r =>
          match rolePermissions r with
          | none => false
          | some permissions => decide (p ∈ permissions)) =
       (match u₂.role with
        | none => false
        | some r =>
          match rolePermissions r with
          | none => false
          | some permissions => decide (p ∈ permissions))
  rw [h]

/-- Witness for C8: two managers differing in id, name and email get the same
verdict on the users:delete permission. -/
theorem hasPermission_depends_only_on_role_witness :
    hasPermission (some uAliceManager) "users:delete" =
      hasPermission (some uBobManager) "users:delete" :=
  hasPermission_depends_only_on_role uAliceManager uBobManager "users:delete" rfl

/-- C9: in the connectWithRetry loop, whenever a connection attempt happens
and fails, the next attempt happens and is scheduled 5000 milliseconds later;
as the statement holds for every attempt index, this repeats on every
failure. -/
theorem connect_retry_every_5s (outcome : Nat → Bool) (n : Nat)
    (hHappens : connectAttemptHappens outcome n = true)
    (hFail : outcome n = false) :
    connectAttemptHappens outcome (n + 1) = true ∧
      connectAttemptTime (n + 1) = connectAttemptTime n + 5000 := by
  refine ⟨?_, rfl⟩
  simp [connectAttemptHappens, hHappens, hFail]

/-- Witness for C9: with every attempt failing, the fourth attempt happens
and is scheduled 5000 milliseconds after the third. -/
theorem connect_retry_every_5s_witness :
    connectAttemptHappens alwaysFail 3 = true ∧
      connectAttemptTime 3 = connectAttemptTime 2 + 5000 :=
  connect_retry_every_5s alwaysFail 2 (by decide) rfl

/-- Counterexample to C3 as stated: a request with isRecurring true and no
recurringType whose assignee id matches no user document is answered 404
(assignee lookup failure), not 400 with the recurring-type message, because
the assignee existence check runs before the recurring-type guard. -/
theorem createTask_no_assignee_responds_404 :
    reqNoAssignee.isRecurring = some true ∧
    reqNoAssignee.recurringType = none ∧
    createTask [] uCarolUser 7 reqNoAssignee = .assigneeNotFound ∧
    createTask [] uCarolUser 7 reqNoAssignee ≠ .recurringTypeRequired ∧
    createOutcomeStatus (createTask [] uCarolUser 7 reqNoAssignee) = 404 := by
  refine ⟨rfl, rfl, by decide, by decide, by decide⟩

/-- C3 (amended): a request whose recurringType lies outside daily, weekly,
monthly, custom is always answered 400 by the validator chain; a request
that passes field validation, whose assignee exists, and that has
isRecurring true with no recurringType, is answered 400 with the
recurring-type message.  In both cases the outcome is not a creation. -/
theorem createTask_recurring_validation
    (users₁ users₂ : List User) (c₁ c₂ : User) (n₁ n₂ : Nat)
    (r₁ r₂ : CreateTaskReq) (ty : String) :
    (r₁.recurringType = some ty → ty ∉ recurringTypes →
      createTask users₁ c₁ n₁ r₁ = .validationError (validateCreate r₁) ∧
      "Recurring type must be daily, weekly, monthly, or custom" ∈ validateCreate r₁ ∧
      createOutcomeStatus (createTask users₁ c₁ n₁ r₁) = 400)
    ∧ (validateCreate r₂ = [] →
        (users₂.find? (fun v => some v.id == r₂.assignedTo)).isSome = true →
        r₂.isRecurring = some true → r₂.recurringType = none →
        createTask users₂ c₂ n₂ r₂ = .recurringTypeRequired ∧
        createOutcomeStatus (createTask users₂ c₂ n₂ r₂) = 400) := by
  constructor
  · intro hty hbad
    have hmem : "Recurring type must be daily, weekly, monthly, or custom" ∈
        validateCreate r₁ := by
      simp [validateCreate, hty, hbad]
    have hne : validateCreate r₁ ≠ [] := List.ne_nil_of_mem hmem
    have hout : createTask users₁ c₁ n₁ r₁ = .validationError (validateCreate r₁) := by
      unfold createTask
      rw [if_neg]
      simp [List.isEmpty_iff, hne]
    exact ⟨hout, hmem, by rw [hout]; rfl⟩
  · intro hv hfind hrec hty
    obtain ⟨v, hv'⟩ := Option.isSome_iff_exists.1 hfind
    have hout : createTask users₂ c₂ n₂ r₂ = .recurringTypeRequired := by
      simp [createTask, hv, hv', hrec, hty, optStrFalsy]
    exact ⟨hout, by rw [hout]; rfl⟩

/-- Witness for C3 (amended): an out-of-set recurringType is answered by the
validator 400, and a recurring request without recurringType whose assignee
exists is answered 400 with the recurring-type message. -/
theorem createTask_recurring_validation_witness :
    (createTask [uAliceManager] uCarolUser 7 reqBadRecurringType =
        .validationError (validateCreate reqBadRecurringType) ∧
      "Recurring type must be daily, weekly, monthly, or custom" ∈
        validateCreate reqBadRecurringType ∧
      createOutcomeStatus (createTask [uAliceManager] uCarolUser 7 reqBadRecurringType) = 400) ∧
    (createTask [uAliceManager] uCarolUser 8 reqMissingRecurringType = .recurringTypeRequired ∧
      createOutcomeStatus (createTask [uAliceManager] uCarolUser 8 reqMissingRecurringType) = 400) := by
  have h := createTask_recurring_validation [uAliceManager] [uAliceManager]
    uCarolUser uCarolUser 7 8 reqBadRecurringType reqMissingRecurringType "yearly"
  exact ⟨h.1 rfl (by decide), h.2 (by decide) (by decide) rfl rfl⟩

/-- C4: an instance spawned by createRecurringTaskInstance from a template
with a recurringEndDate is never due after that end date, and for templates
without a recurringEndDate an instance is always spawned (generation never
stops on a date bound). -/
theorem createRecurringTaskInstance_respects_end_date
    (t₁ t₂ : Task) (e : Int) (n₁ n₂ : Nat) (inst : Task) :
    (t₁.recurringEndDate = some e →
      createRecurringTaskInstance n₁ t₁ = some inst → inst.dueDate ≤ e)
    ∧ (t₂.recurringEndDate = none →
      (createRecurringTaskInstance n₂ t₂).isSome = true) := by
  constructor
  · intro hEnd hInst
    unfold createRecurringTaskInstance at hInst
    rw [hEnd] at hInst
    dsimp only at hInst
    by_cases hle : nextDueDate t₁ ≤ e
    · rw [if_pos hle] at hInst
      injection hInst with h
      rw [← h]
      exact hle
    · rw [if_neg hle] at hInst
      exact absurd hInst (by simp)
  · intro hEnd
    simp [createRecurringTaskInstance, hEnd]

/-- Witness for C4: the template bounded at day 11 spawns its instance due on
day 11, and the unbounded template always spawns. -/
theorem createRecurringTaskInstance_respects_end_date_witness :
    instDailyEnd.dueDate ≤ 11 ∧
      (createRecurringTaskInstance 98 tmplDailyNoEnd).isSome = true :=
  ⟨(createRecurringTaskInstance_respects_end_date tmplDailyEnd tmplDailyNoEnd
      11 99 98 instDailyEnd).1 rfl (by decide),
   (createRecurringTaskInstance_respects_end_date tmplDailyEnd tmplDailyNoEnd
      11 99 98 instDailyEnd).2 rfl⟩

/-- C5: every instance spawned by createRecurringTaskInstance carries the
parentTaskId of its template, and PUT /api/tasks/:id answers an authorized,
well-formed update that would set isRecurring on a task carrying a
parentTaskId with the 400 child-task guard, leaving the collection
unchanged. -/
theorem recurring_instance_linkage_and_child_guard
    (db : List Task) (u : User) (id nid n₂ : Nat) (b : UpdateReq)
    (task tmpl inst : Task) :
    (validateUpdate b = [] →
      db.find? (fun t => t.id == id) = some task →
      (task.createdBy = u.id ∨ u.role = some "admin" ∨ u.role = some "manager") →
      task.parentTaskId.isSome = true →
      b.isRecurring = some true →
      updateTask db u id b nid = (.childRecurring, db) ∧
        updateOutcomeStatus .childRecurring = 400)
    ∧ (createRecurringTaskInstance n₂ tmpl = some inst →
        inst.parentTaskId = some tmpl.id) := by
  constructor
  · intro hv hf hauth hparent hrec
    refine ⟨?_, rfl⟩
    rcases hauth with h | h | h <;>
      simp [updateTask, hv, hf, h, hparent, hrec]
  · intro h
    unfold createRecurringTaskInstance at h
    dsimp only at h
    split at h
    · split at h
      · injection h with h'
        rw [← h']
      · exact absurd h (by simp)
    · injection h with h'
      rw [← h']

/-- Witness for C5: the manager-owned update setting isRecurring on the
spawned child task is refused with the 400 guard and changes nothing, and
the concrete spawned instance links back to its template. -/
theorem recurring_instance_linkage_and_child_guard_witness :
    (updateTask [childTask] uAliceManager 20 reqMakeRecurring 50 =
        (.childRecurring, [childTask]) ∧
      updateOutcomeStatus .childRecurring = 400) ∧
    instDailyEnd.parentTaskId = some tmplDailyEnd.id := by
  have h := recurring_instance_linkage_and_child_guard [childTask] uAliceManager
    20 50 99 reqMakeRecurring childTask tmplDailyEnd instDailyEnd
  exact ⟨h.1 (by decide) (by decide) (Or.inl (by decide)) (by decide) rfl,
         h.2 (by decide)⟩

/-- C6: DELETE /api/tasks/:id deletes exactly when the requester created the
task or has the admin role; any other requester, in particular a manager who
is not the creator, is answered 403 with the collection unchanged, even
though the manager role holds tasks:delete-all in the permission table. -/
theorem deleteTask_creator_or_admin_only
    (db₁ db₂ : List Task) (u₁ u₂ : User) (id₁ id₂ : Nat) (task₂ : Task) :
    ((deleteTask db₁ u₁ id₁).1 = .deleted ↔
      ∃ task₁, db₁.find? (fun t => t.id == id₁) = some task₁ ∧
        (task₁.createdBy = u₁.id ∨ u₁.role = some "admin"))
    ∧ (db₂.find? (fun t => t.id == id₂) = some task₂ →
        task₂.createdBy ≠ u₂.id → u₂.role ≠ some "admin" →
        deleteTask db₂ u₂ id₂ = (.forbidden, db₂) ∧
          deleteOutcomeStatus .forbidden = 403)
    ∧ "tasks:delete-all" ∈ managerPermissions := by
  refine ⟨?_, ?_, by decide⟩
  · cases hf : db₁.find? (fun t => t.id == id₁) with
    | none => simp [deleteTask, hf]
    | some task =>
      by_cases hc : task.createdBy = u₁.id ∨ u₁.role = some "admin"
      · have hb : (task.createdBy == u₁.id || u₁.role == some "admin") = true := by
          rcases hc with h | h <;> simp [h]
        simp [deleteTask, hf, hb, hc]
      · rw [not_or] at hc
        have hb : (task.createdBy == u₁.id || u₁.role == some "admin") = false := by
          simp [hc.1, hc.2]
        simp [deleteTask, hf, hb, hc.1, hc.2]
  · intro hf hnc hna
    have hb : (task₂.createdBy == u₂.id || u₂.role == some "admin") = false := by
      simp [hnc, hna]
    exact ⟨by simp [deleteTask, hf, hb], rfl⟩

/-- Witness for C6: the manager Alice, who did not create the task, is
answered 403 and the task survives, while tasks:delete-all is in the manager
permission list. -/
theorem deleteTask_creator_or_admin_only_witness :
    (deleteTask [taskByCarol] uAliceManager 30 = (.forbidden, [taskByCarol]) ∧
      deleteOutcomeStatus .forbidden = 403) ∧
    "tasks:delete-all" ∈ managerPermissions := by
  have h := deleteTask_creator_or_admin_only [taskByCarol] [taskByCarol]
    uAliceManager uAliceManager 30 30 taskByCarol
  exact ⟨h.2.1 (by decide) (by decide) (by decide), h.2.2⟩

/-- Counterexample to C10 as stated: an admin targeting their own id on
PUT /api/users/:id/role with a malformed role value is answered 400 by the
role validator, not 403 (the target stays unchanged). -/
theorem selfRoleUpdate_invalid_role_responds_400 :
    updateUserRole [uDanAdmin] uDanAdmin uDanAdmin.id "superuser" =
      (.validationError, [uDanAdmin]) ∧
    roleUpdateStatus .validationError = 400 ∧
    (400 : Nat) ≠ 403 := by
  refine ⟨by decide, rfl, by decide⟩

/-- C10 (amended): a self-targeted PUT /api/users/:id/role never changes the
collection and, whenever the submitted role is well formed (admin, manager
or user) and the requester is stored, is answered 403; a self-targeted
DELETE /api/users/:id never changes the collection and, whenever the
requester is stored, is answered 403.  So no user, including an admin, can
change their own role or delete their own account through these
endpoints. -/
theorem self_role_change_and_self_delete_blocked
    (dbU dbV : List User) (r s : User) (role : String) :
    ((updateUserRole dbU r r.id role).2 = dbU)
    ∧ (role ∈ ["admin", "manager", "user"] → (∃ v ∈ dbU, v.id = r.id) →
        roleUpdateStatus (updateUserRole dbU r r.id role).1 = 403)
    ∧ ((deleteUser dbV s s.id).2 = dbV)
    ∧ ((∃ v ∈ dbV, v.id = s.id) →
        userDeleteStatus (deleteUser dbV s s.id).1 = 403) := by
  refine ⟨?_, ?_, ?_, ?_⟩
  · cases hp : hasPermission (some r) "users:manage-roles" with
    | false => simp [updateUserRole, hp]
    | true =>
      by_cases hrole : role ∈ ["admin", "manager", "user"]
      · cases hf : dbU.find? (fun v => v.id == r.id) with
        | none => simp [updateUserRole, hp, hrole, hf]
        | some target =>
          have hts : (target.id == r.id) = true := by
            have h0 := List.find?_some hf
            exact h0
          simp [updateUserRole, hp, hrole, hf, hts]
      · simp [updateUserRole, hp, hrole]
  · intro hrole hex
    cases hp : hasPermission (some r) "users:manage-roles" with
    | false => simp [updateUserRole, hp, roleUpdateStatus]
    | true =>
      cases hf : dbU.find? (fun v => v.id == r.id) with
      | none =>
        obtain ⟨v, hvMem, hvId⟩ := hex
        have := List.find?_eq_none.1 hf v hvMem
        simp [hvId] at this
      | some target =>
        have hts : (target.id == r.id) = true := by
          have h0 := List.find?_some hf
          exact h0
        simp [updateUserRole, hp, hrole, hf, hts, roleUpdateStatus]
  · cases hp : hasPermission (some s) "users:delete" with
    | false => simp [deleteUser, hp]
    | true =>
      cases hf : dbV.find? (fun v => v.id == s.id) with
      | none => simp [deleteUser, hp, hf]
      | some target =>
        have hts : (target.id == s.id) = true := by
          have h0 := List.find?_some hf
          exact h0
        simp [deleteUser, hp, hf, hts]
  · intro hex
    cases hp : hasPermission (some s) "users:delete" with
    | false => simp [deleteUser, hp, userDeleteStatus]
    | true =>
      cases hf : dbV.find? (fun v => v.id == s.id) with
      | none =>
        obtain ⟨v, hvMem, hvId⟩ := hex
        have := List.find?_eq_none.1 hf v hvMem
        simp [hvId] at this
      | some target =>
        have hts : (target.id == s.id) = true := by
          have h0 := List.find?_some hf
          exact h0
        simp [deleteUser, hp, hf, hts, userDeleteStatus]

/-- Witness for C10 (amended): the admin Dan, targeting himself with a well
formed role value, is answered 403 on the role route and 403 on the delete
route, with the collection unchanged both times. -/
theorem self_role_change_and_self_delete_blocked_witness :
    ((updateUserRole [uDanAdmin] uDanAdmin uDanAdmin.id "manager").2 = [uDanAdmin]) ∧
    roleUpdateStatus (updateUserRole [uDanAdmin] uDanAdmin uDanAdmin.id "manager").1 = 403 ∧
    ((deleteUser [uDanAdmin] uDanAdmin uDanAdmin.id).2 = [uDanAdmin]) ∧
    userDeleteStatus (deleteUser [uDanAdmin] uDanAdmin uDanAdmin.id).1 = 403 := by
  have h := self_role_change_and_self_delete_blocked [uDanAdmin] [uDanAdmin]
    uDanAdmin uDanAdmin "manager"
  exact ⟨h.1, h.2.1 (by decide) ⟨uDanAdmin, by simp, rfl⟩,
         h.2.2.1, h.2.2.2 ⟨uDanAdmin, by simp, rfl⟩⟩

/-! Helper lemmas characterizing the slots of the built task query. -/

/-- An unset slot matches everything. -/
theorem qmatch_none {α : Type} [BEq α] (v : α) : qmatch (none : Option α) v = true := rfl

/-- Slot set from a truthy string parameter. -/
theorem qmatch_ite_strTruthy (o : Option String) (v : String) :
    qmatch (if strTruthy o then o else none) v = (!strTruthy o || v == o.getD "") := by
  cases o with
  | none => rfl
  | some s =>
    by_cases hs : s = ""
    · subst hs; rfl
    · have ht : strTruthy (some s) = true := by simp [strTruthy, hs]
      simp [ht, qmatch]

/-- Slot set from a present optional parameter. -/
theorem qmatch_ite_isSome (o : Option Nat) (v : Nat) :
    qmatch (if o.isSome then o else none) v = (!o.isSome || v == o.getD 0) := by
  cases o <;> rfl

/-- The isRecurring slot set from a present string parameter. -/
theorem qmatch_ite_isRecurring (o : Option String) (v : Bool) :
    qmatch (if o.isSome then some (o == some "true") else none) v =
      (!o.isSome || v == (o == some "true")) := by
  cases o <;> rfl

/-- The recurringType slot set from a truthy string parameter. -/
theorem qmatchOptField_ite (o : Option String) (v : Option String) :
    qmatchOptField (if strTruthy o then o else none) v =
      (!strTruthy o || v == some (o.getD "")) := by
  cases o with
  | none => rfl
  | some s =>
    by_cases hs : s = ""
    · subst hs; rfl
    · have ht : strTruthy (some s) = true := by simp [strTruthy, hs]
      simp [ht, qmatchOptField]

/-- The or-slot set from a truthy search parameter. -/
theorem matchesOrClause_search_ite (o : Option String) (t : Task) :
    matchesOrClause (if strTruthy o then some (OrClause.searchOr (o.getD "")) else none) t =
      (!strTruthy o ||
        (containsCI t.title (o.getD "") || containsCI t.description (o.getD ""))) := by
  cases o with
  | none => rfl
  | some s =>
    by_cases hs : s = ""
    · subst hs; rfl
    · have ht : strTruthy (some s) = true := by simp [strTruthy, hs]
      simp [ht, matchesOrClause]

/-- The query built by GET /api/tasks matches exactly the caller's filters
for admin and manager callers, and exactly the plain filters conjoined with
the role-visibility disjunction for every other caller. -/
theorem matchesTaskQuery_buildTaskQuery (p : ListParams) (u : User) (t : Task) :
    matchesTaskQuery (buildTaskQuery p u) t =
      (if canSeeAllTasks u then plainFilter p t && searchFilter p t && adminParamFilter p t
       else plainFilter p t && visibilityFilter u t) := by
  cases hc : canSeeAllTasks u
  · simp [buildTaskQuery, hc, matchesTaskQuery, baseTaskQuery, qmatch_ite_strTruthy,
      qmatch_ite_isRecurring, qmatchOptField_ite, qmatch_none, matchesOrClause,
      plainFilter, visibilityFilter, Bool.and_assoc]
  · simp [buildTaskQuery, hc, matchesTaskQuery, baseTaskQuery, qmatch_ite_strTruthy,
      qmatch_ite_isRecurring, qmatchOptField_ite, matchesOrClause_search_ite,
      qmatch_ite_isSome, plainFilter, searchFilter, adminParamFilter, Bool.and_assoc]

/-- C2: GET /api/tasks and GET /api/tasks/stats are role-scoped.  A document
matches the task-list query of an admin or manager caller exactly when it
passes the caller's optional filters (no visibility restriction), and
matches the query of any other caller exactly when it passes the plain
filters and is assigned to or created by the caller; the stats base query
covers every document for admin and manager callers and exactly the caller's
own documents otherwise. -/
theorem taskList_and_stats_role_scoped (db : List Task) (p : ListParams)
    (u : User) (t : Task) :
    (t ∈ tasksMatching db p u ↔
      t ∈ db ∧ (if canSeeAllTasks u then
                  plainFilter p t && searchFilter p t && adminParamFilter p t
                else plainFilter p t && visibilityFilter u t) = true)
    ∧ (t ∈ statsMatchSet db u ↔
        t ∈ db ∧ (canSeeAllTasks u = true ∨ t.assignedTo = u.id ∨ t.createdBy = u.id)) := by
  constructor
  · simp only [tasksMatching, List.mem_filter, matchesTaskQuery_buildTaskQuery]
  · simp only [statsMatchSet, List.mem_filter]
    refine and_congr_right fun _ => ?_
    cases hc : (u.role == some "admin" || u.role == some "manager") with
    | false => simp [statsBaseQuery, statsMatches, hc, canSeeAllTasks]
    | true => simp [statsBaseQuery, statsMatches, hc, canSeeAllTasks]

/-- C7: for a caller that is neither admin nor manager, the search parameter
does not change the built query at all (the role-visibility or-clause
overwrites the search or-clause), so the same documents match with and
without it. -/
theorem search_ignored_for_regular_users (db : List Task) (p : ListParams)
    (u : User) (s : String) (h : canSeeAllTasks u = false) :
    buildTaskQuery { p with search := some s } u =
        buildTaskQuery { p with search := none } u
    ∧ tasksMatching db { p with search := some s } u =
        tasksMatching db { p with search := none } u := by
  have h1 : buildTaskQuery { p with search := some s } u =
      buildTaskQuery { p with search := none } u := by
    simp [buildTaskQuery, baseTaskQuery, h]
  exact ⟨h1, by simp only [tasksMatching, h1]⟩

/-- Witness for C7: for the regular user Carol a concrete search string
leaves both the built query and the matching documents unchanged. -/
theorem search_ignored_for_regular_users_witness :
    buildTaskQuery { emptyListParams with search := some "deploy" } uCarolUser =
        buildTaskQuery { emptyListParams with search := none } uCarolUser
    ∧ tasksMatching [taskByCarol] { emptyListParams with search := some "deploy" } uCarolUser =
        tasksMatching [taskByCarol] { emptyListParams with search := none } uCarolUser :=
  search_ignored_for_regular_users [taskByCarol] emptyListParams uCarolUser "deploy" (by decide)

end TaskManagerPro
